import Mathlib

/-!
Shallow embedding of the Portfolio Showcase Telegram bot
(src/lib/supabase.js: the Supabase gateway helpers at lines 1-161 and the
webhook bot handlers at lines 567-974, which the claims cite).

Each handler is modelled as a pure function from its inputs (the sender,
the configured environment, and injected backend or transport outcomes)
to the updated registration store together with the ordered list of
observable effects: gateway calls, replies, message edits, callback
answers, broadcast sends and audit-log appends.
-/

/-- A Telegram sender, the relevant fields of ctx.from: numeric id plus the
optional username and first_name strings. -/
structure User where
  id : Nat
  username : Option String
  first_name : Option String
deriving DecidableEq

/-- A row of the registrations table as inserted by registerUser
(src/lib/supabase.js lines 56-77). -/
structure Registrant where
  telegram_id : Nat
  username : Option String
  first_name : String
deriving DecidableEq

/-- A row of the two-column projection returned by getRegisteredUsersList
(select telegram_id, username; lines 106-121). -/
structure ListedUser where
  telegram_id : Nat
  username : Option String
deriving DecidableEq

/-- A row of the admin_logs table as inserted by logAdminAction
(lines 130-151). -/
structure AdminLogEntry where
  admin_telegram_id : Nat
  action : String
  details : String
deriving DecidableEq

/-- An inline-keyboard button: Markup.button.callback carries callback data,
Markup.button.url carries a link. -/
inductive BtnSpec where
  | callbackBtn (label : String) (data : String)
  | urlBtn (label : String) (url : String)
deriving DecidableEq

/-- One observable effect of a handler invocation, recorded in program
order: calls into the persistence gateway, transport operations, and
audit-log appends. Console logging is modelled only for bot.catch, where a
claim depends on it. -/
inductive Eff where
  | callIsRegistered (id : Nat)
  | callRegister (row : Registrant)
  | callCount
  | callList
  | logAppend (entry : AdminLogEntry)
  | reply (text : String)
  | replyButtons (text : String) (buttons : List (List BtnSpec))
  | editMessage (text : String)
  | answerCb (text : Option String) (alert : Bool)
  | sendMessage (chatId : Nat) (text : String)
  | consoleErr (text : String)
deriving DecidableEq

/-- Result of a handler: the registration store after the call and the
effect trace. -/
structure HandlerResult where
  store : List Registrant
  effects : List Eff
deriving DecidableEq

/-- Prefix test on character lists (kernel-reducible replacement for
String.startsWith). -/
def charsStartWith : List Char → List Char → Bool
  | _, [] => true
  | [], _ :: _ => false
  | c :: cs, d :: ds => c == d && charsStartWith cs ds

/-- JS s.startsWith(p). -/
def jsStartsWith (s p : String) : Bool :=
  charsStartWith s.data p.data

/-- JS s.substring(n): drop the first n characters, empty when n exceeds
the length. -/
def jsSubstringFrom (s : String) (n : Nat) : String :=
  ⟨s.data.drop n⟩

/-- JS s.trim(): strip whitespace from both ends. -/
def jsTrim (s : String) : String :=
  ⟨((s.data.dropWhile Char.isWhitespace).reverse.dropWhile Char.isWhitespace).reverse⟩

/-- JS truthiness of an optional string: null, undefined and "" are falsy. -/
def jsTruthy : Option String → Bool
  | some s => s != ""
  | none => false

/-- JS `x || d` on an optional string: null, undefined and "" select the
fallback, as in `ctx.from.first_name || 'there'`. -/
def jsOr (v : Option String) (d : String) : String :=
  match v with
  | some s => if s = "" then d else s
  | none => d

/-- Value of a maximal leading run of decimal digits; none when the run is
empty (parseInt would give NaN). -/
def digitsVal (cs : List Char) : Option Nat :=
  let ds := cs.takeWhile Char.isDigit
  if ds.isEmpty then none
  else some (ds.foldl (fun a c => 10 * a + (c.toNat - 48)) 0)

/-- JS parseInt(s, 10): skip leading whitespace, an optional sign, then the
longest run of decimal digits; NaN (here none) when no digit follows. -/
def parseIntJS (s : String) : Option Int :=
  match s.data.dropWhile Char.isWhitespace with
  | '-' :: rest => (digitsVal rest).map (fun n => -(n : Int))
  | '+' :: rest => (digitsVal rest).map (fun n => (n : Int))
  | cs => (digitsVal cs).map (fun n => (n : Int))

/-- JS string coercion applied to an environment lookup: an unset variable
is undefined and String(undefined) is "undefined", so parseInt on it is
NaN. -/
def envToString (v : Option String) : String := v.getD "undefined"

/-- The comparison `ctx.from.id === parseInt(ADMIN_ID, 10)` (line 592 and
line 731): false whenever the parse is NaN, since NaN === x is false. -/
def adminMatches (adminIdEnv : Option String) (id : Nat) : Bool :=
  match parseIntJS (envToString adminIdEnv) with
  | some n => ((id : Int) == n)
  | none => false

/-- The isAdmin middleware test (lines 591-596):
`ctx.from && ctx.from.id === parseInt(ADMIN_ID, 10)`. -/
def isAdminGate (adminIdEnv : Option String) (sender : Option User) : Bool :=
  match sender with
  | some u => adminMatches adminIdEnv u.id
  | none => false

/-- Membership of an id in the registrations store (the backend's view that
isUserRegistered queries). -/
def storeIsRegistered (store : List Registrant) (id : Nat) : Bool :=
  store.any (fun r => r.telegram_id == id)

/-- Number of rows of the store carrying a given id. -/
def countId (store : List Registrant) (id : Nat) : Nat :=
  (store.filter (fun r => r.telegram_id == id)).length

/-- Injected backend faults, one flag per gateway operation used by the
registration workflow. -/
structure DbFaults where
  checkFails : Bool
  insertFails : Bool
deriving DecidableEq

/-- No injected faults. -/
def noFaults : DbFaults := ⟨false, false⟩

/-- The isUserRegistered result as the handlers see it, as a function of
the store: some (membership) normally, none when the backend call fails
(the error sentinel of lines 32-49). -/
def isRegisteredOp (f : DbFaults) (store : List Registrant) (id : Nat) : Option Bool :=
  if f.checkFails then none else some (storeIsRegistered store id)

/-- The registerUser result as a function of the store: the inserted row
appended on success, none on a backend fault — a duplicate insert violates
the unique key on telegram_id and surfaces as the same error sentinel
(lines 56-77 and spec section 5). -/
def registerOp (f : DbFaults) (store : List Registrant) (row : Registrant) :
    Option (List Registrant) :=
  if f.insertFails || storeIsRegistered store row.telegram_id then none
  else some (store ++ [row])

/-- Extract the audit-log appends from a trace. -/
def logEntryOf : Eff → Option AdminLogEntry
  | .logAppend a => some a
  | _ => none

def logEvents (es : List Eff) : List AdminLogEntry :=
  es.filterMap logEntryOf

/-- Extract the inline keyboards attached to replies in a trace. -/
def buttonRowsOf : Eff → Option (List (List BtnSpec))
  | .replyButtons _ bs => some bs
  | _ => none

def buttonsOf (es : List Eff) : List (List (List BtnSpec)) :=
  es.filterMap buttonRowsOf

-- Literal user-facing strings of the source (the curly quote is U+2019 as
-- in the file; ASCII apostrophes are written with the ' escape).

def genericFailMsg : String := "Something went wrong, please try again later."

def alreadyRegisteredMsg : String :=
  "You’re already registered. I’ll notify you when the app is live."

def notForYouMsg : String := "This registration prompt is not for you."

def regFailedMsg : String :=
  "Something went wrong during registration, please try again later."

def declineMsg : String :=
  "No problem! You can type /start again anytime if you change your mind."

def confirmMsg (firstName : String) : String :=
  "🎉 Great! Thanks for registering, " ++ firstName ++
  "! I’ll notify you when the Portfolio Showcase app is ready."

def unauthorizedMsg : String :=
  "Unauthorized access. This command is for admins only."

def hintMsg : String :=
  "I'm a registration bot! Please use commands like /start or /help."

def usageMsg : String :=
  "Please provide a message to send. Example: `/notify The app is now live!`"

def countDbFailMsg : String :=
  "Something went wrong while fetching user count, please try again later."

def listDbFailMsg : String :=
  "Something went wrong while fetching the user list, please try again later."

def notifyDbFailMsg : String :=
  "Something went wrong while fetching the user list for notification, please try again later."

def broadcastCatchMsg : String :=
  "Something went wrong during the broadcast, please try again later."

def noUsersMsg : String := "No users are currently registered."

def noUsersNotifyMsg : String := "No users are currently registered to notify."

/-- The accept button of the /start prompt: its callback data embeds the
initiating user's id (line 632). -/
def acceptButton (id : Nat) : BtnSpec :=
  .callbackBtn "✅ Yes, register me!" ("register_yes:" ++ toString id)

/-- The decline button of the /start prompt: fixed callback data with no
embedded id (line 633). -/
def declineButton : BtnSpec :=
  .callbackBtn "❌ No, thanks." "register_no"

def contactAdminButton (username : String) : BtnSpec :=
  .urlBtn "❓ Contact Admin" ("https://t.me/" ++ username)

/-- The registration prompt of /start (lines 618-627). -/
def startPrompt (u : User) : String :=
  "Hello " ++ jsOr u.first_name "there" ++ "! I see you're not yet registered.\n\n" ++
  "I'll collect the following information to keep you updated:\n" ++
  "• Your Telegram ID: `" ++ toString u.id ++ "`\n" ++
  (if jsTruthy u.username then
    "• Your Username: `@" ++ jsOr u.username "" ++ "`\n"
   else
    "• Your Username: `Not available` (You can set one in Telegram settings!)\n") ++
  "• Your First Name: `" ++ jsOr u.first_name "Not provided" ++ "`\n\n" ++
  "Would you like to register for updates about the Portfolio Showcase app?"

/-- The /start handler (lines 599-656): check membership, then reply with
the already-registered notice, the generic failure, or the registration
prompt with its buttons. It never writes to the store. -/
def startCmd (adminUsernameEnv : Option String) (f : DbFaults)
    (store : List Registrant) (u : User) : HandlerResult :=
  match isRegisteredOp f store u.id with
  | none => ⟨store, [.callIsRegistered u.id, .reply genericFailMsg]⟩
  | some true => ⟨store, [.callIsRegistered u.id, .reply alreadyRegisteredMsg]⟩
  | some false =>
    ⟨store,
      [.callIsRegistered u.id,
       .replyButtons (startPrompt u)
         ([[acceptButton u.id, declineButton]] ++
          (if jsTruthy adminUsernameEnv then
            [[contactAdminButton (jsOr adminUsernameEnv "")]]
           else []))]⟩

/-- The two callback actions matched by /register_(yes|no):?(\d+)?/. -/
inductive RegAction where
  | yes
  | no
deriving DecidableEq

/-- Group 2 of the callback regex followed by the JS conversion
`ctx.match[2] ? parseInt(ctx.match[2], 10) : null`: an optional colon, then
an optional digit run. -/
def matchGroup2 (rest : String) : Option Nat :=
  let rest2 := if jsStartsWith rest ":" then jsSubstringFrom rest 1 else rest
  let ds := rest2.data.takeWhile Char.isDigit
  if ds.isEmpty then none
  else some (ds.foldl (fun a c => 10 * a + (c.toNat - 48)) 0)

/-- The callback-data parse of bot.action(/register_(yes|no):?(\d+)?/)
(line 659) specialised to data beginning with the literal prefixes the bot
itself creates. -/
def parseCallback (data : String) : Option (RegAction × Option Nat) :=
  if jsStartsWith data "register_yes" then some (.yes, matchGroup2 (jsSubstringFrom data 12))
  else if jsStartsWith data "register_no" then some (.no, matchGroup2 (jsSubstringFrom data 11))
  else none

/-- The guard `telegramIdFromCallback && telegramIdFromCallback !==
currentTelegramId` (line 667): the number 0 is falsy in JS, so a carried id
of 0 never blocks. -/
def cbGuardBlocks (cbId : Option Nat) (current : Nat) : Bool :=
  match cbId with
  | some n => n != 0 && n != current
  | none => false

/-- The register_yes / register_no callback handler (lines 659-725). -/
def registerAction (action : RegAction) (cbId : Option Nat) (u : User)
    (f : DbFaults) (store : List Registrant) : HandlerResult :=
  if cbGuardBlocks cbId u.id then
    ⟨store, [.answerCb (some notForYouMsg) true]⟩
  else
    match action with
    | .no => ⟨store, [.answerCb none false, .editMessage declineMsg]⟩
    | .yes =>
      match isRegisteredOp f store u.id with
      | none =>
        ⟨store, [.answerCb none false, .callIsRegistered u.id,
                 .editMessage genericFailMsg]⟩
      | some true =>
        ⟨store, [.answerCb none false, .callIsRegistered u.id,
                 .editMessage alreadyRegisteredMsg]⟩
      | some false =>
        let row : Registrant := ⟨u.id, u.username, jsOr u.first_name "N/A"⟩
        match registerOp f store row with
        | some store2 =>
          ⟨store2, [.answerCb none false, .callIsRegistered u.id,
                    .callRegister row,
                    .editMessage (confirmMsg (jsOr u.first_name "there"))]⟩
        | none =>
          ⟨store, [.answerCb none false, .callIsRegistered u.id,
                   .callRegister row, .editMessage regFailedMsg]⟩

def helpBase : String :=
  "Welcome to the Portfolio Showcase Bot!\n\nUse /start to register for updates on the upcoming Portfolio Showcase Mini App.\n"

def helpAdminSection : String :=
  "\n--- Admin Commands ---\n/count - Get the total number of registered users.\n/list - Get a list of all registered usernames and IDs.\n/notify <message> - Send a broadcast message to all registered users. Example: `/notify The app is live!`\n"

/-- The /help handler (lines 729-745). -/
def helpCmd (adminIdEnv : Option String) (u : User) : List Eff :=
  [.reply (helpBase ++ (if adminMatches adminIdEnv u.id then helpAdminSection else ""))]

/-- The /count handler behind isAdmin (lines 750-782). `exn = some m`
injects an unexpected fault: the first awaited ctx.reply of the try block
rejects with message m, so control reaches the catch block, whose own
reply and count_users_failed log then run. -/
def countCmd (adminIdEnv : Option String) (sender : Option User)
    (db : Option Nat) (exn : Option String) : List Eff :=
  match sender with
  | none => [.reply unauthorizedMsg]
  | some u =>
    if isAdminGate adminIdEnv (some u) then
      match exn with
      | some m =>
        [.callCount, .reply genericFailMsg,
         .logAppend ⟨u.id, "count_users_failed", "Unhandled error: " ++ m⟩]
      | none =>
        match db with
        | none =>
          [.callCount, .reply countDbFailMsg,
           .logAppend ⟨u.id, "count_users_failed", "Database error fetching count."⟩]
        | some n =>
          [.callCount, .reply ("Currently, " ++ toString n ++ " users are registered."),
           .logAppend ⟨u.id, "count_users", "Returned count: " ++ toString n⟩]
    else [.reply unauthorizedMsg]

/-- Rendering of one /list entry (lines 812-815): the username part is
added only when the username is truthy, so a null, missing or empty-string
username renders as the bare id. -/
def formatUserEntry (v : ListedUser) : String :=
  "- " ++ toString v.telegram_id ++
  (if jsTruthy v.username then " (@" ++ jsOr v.username "" ++ ")" else "")

def formatUserList (users : List ListedUser) : String :=
  String.intercalate "\n" (users.map formatUserEntry)

/-- The /list handler behind isAdmin (lines 785-834), with the same fault
injection convention as countCmd. -/
def listCmd (adminIdEnv : Option String) (sender : Option User)
    (db : Option (List ListedUser)) (exn : Option String) : List Eff :=
  match sender with
  | none => [.reply unauthorizedMsg]
  | some u =>
    if isAdminGate adminIdEnv (some u) then
      match exn with
      | some m =>
        [.callList, .reply genericFailMsg,
         .logAppend ⟨u.id, "list_users_failed", "Unhandled error: " ++ m⟩]
      | none =>
        match db with
        | none =>
          [.callList, .reply listDbFailMsg,
           .logAppend ⟨u.id, "list_users_failed", "Database error fetching list."⟩]
        | some [] =>
          [.callList, .reply noUsersMsg,
           .logAppend ⟨u.id, "list_users", "No registered users."⟩]
        | some users =>
          [.callList, .reply ("Registered Users:\n" ++ formatUserList users),
           .logAppend ⟨u.id, "list_users",
             "Returned " ++ toString users.length ++ " users."⟩]
    else [.reply unauthorizedMsg]

/-- Outcome of the sequential broadcast loop of /notify (lines 881-891):
the send attempts in order, the two tallies, and the failed ids in
iteration order. -/
structure BroadcastOut where
  effs : List Eff
  sent : Nat
  failed : Nat
  failedIds : List Nat
deriving DecidableEq

/-- The broadcast loop: every user is attempted; a send failure is caught
in the inner try, tallied, and its id pushed — it never aborts the rest. -/
def broadcastLoop (sf : Nat → Bool) (msg : String) : List ListedUser → BroadcastOut
  | [] => ⟨[], 0, 0, []⟩
  | v :: rest =>
    let o := broadcastLoop sf msg rest
    if sf v.telegram_id then
      ⟨.sendMessage v.telegram_id msg :: o.effs, o.sent, o.failed + 1,
       v.telegram_id :: o.failedIds⟩
    else
      ⟨.sendMessage v.telegram_id msg :: o.effs, o.sent + 1, o.failed, o.failedIds⟩

def sendEff (msg : String) (v : ListedUser) : Eff :=
  .sendMessage v.telegram_id msg

def sendEffs (msg : String) (users : List ListedUser) : List Eff :=
  users.map (sendEff msg)

def failsOn (sf : Nat → Bool) (v : ListedUser) : Bool :=
  sf v.telegram_id

def failedIdsOf (sf : Nat → Bool) (users : List ListedUser) : List Nat :=
  (users.filter (failsOn sf)).map ListedUser.telegram_id

def joinedIds (ids : List Nat) : String :=
  String.intercalate ", " (ids.map toString)

/-- `failedUserIds.join(', ') || 'N/A'` (line 898): the join of an empty
array is "" which is falsy. -/
def idsOrNA (ids : List Nat) : String :=
  if joinedIds ids = "" then "N/A" else joinedIds ids

def broadcastSummary (s f : Nat) : String :=
  "Broadcast complete! Sent to " ++ toString s ++ " users. Failed for " ++
  toString f ++ " users."

def broadcastDetails (msg : String) (s f : Nat) (ids : List Nat) : String :=
  "Message: \"" ++ msg ++ "\" | Sent: " ++ toString s ++ ", Failed: " ++
  toString f ++ " (IDs: " ++ idsOrNA ids ++ ")"

/-- The /notify handler behind isAdmin (lines 837-910). raw is the full
message text; the handler itself strips the 8-character '/notify ' prefix
and trims. sf says which recipient ids fail to receive the send. exn is
the same unexpected-fault injection as in countCmd; the validation branch
sits before the try block, so exn does not apply there. -/
def notifyCmd (adminIdEnv : Option String) (sender : Option User) (raw : String)
    (db : Option (List ListedUser)) (sf : Nat → Bool) (exn : Option String) :
    List Eff :=
  match sender with
  | none => [.reply unauthorizedMsg]
  | some u =>
    if isAdminGate adminIdEnv (some u) then
      let messageText := jsTrim (jsSubstringFrom raw 8)
      if messageText = "" then
        [.reply usageMsg,
         .logAppend ⟨u.id, "notify_failed", "No message text provided."⟩]
      else
        match db with
        | none =>
          match exn with
          | none =>
            [.callList, .reply notifyDbFailMsg,
             .logAppend ⟨u.id, "notify_failed",
               "Database error fetching user list for broadcast."⟩]
          | some m =>
            [.callList, .reply broadcastCatchMsg,
             .logAppend ⟨u.id, "notify_failed",
               "Unhandled error during broadcast: " ++ m⟩]
        | some [] =>
          match exn with
          | none =>
            [.callList, .reply noUsersNotifyMsg,
             .logAppend ⟨u.id, "notify_attempt_no_users",
               "No registered users to send broadcast to."⟩]
          | some m =>
            [.callList, .reply broadcastCatchMsg,
             .logAppend ⟨u.id, "notify_failed",
               "Unhandled error during broadcast: " ++ m⟩]
        | some users =>
          let o := broadcastLoop sf messageText users
          match exn with
          | none =>
            [Eff.callList] ++ o.effs ++
            [.reply (broadcastSummary o.sent o.failed),
             .logAppend ⟨u.id, "broadcast_message",
               broadcastDetails messageText o.sent o.failed o.failedIds⟩]
          | some m =>
            [Eff.callList] ++ o.effs ++
            [.reply broadcastCatchMsg,
             .logAppend ⟨u.id, "notify_failed",
               "Unhandled error during broadcast: " ++ m⟩]
    else [.reply unauthorizedMsg]

/-- The bot.on('message') fallback (lines 918-923): replies with the hint
only for a present, non-empty text that does not start with '/'. -/
def messageFallback (text : Option String) : List Eff :=
  match text with
  | some t => if t != "" && !(jsStartsWith t "/") then [.reply hintMsg] else []
  | none => []

/-- bot.catch (lines 913-915): the error is written to the console and
nothing is sent to the user — the reply there is commented out. -/
def botCatch (updateType : String) : List Eff :=
  [.consoleErr ("[Telegraf CATCH] Error for " ++ updateType ++ ":")]

/-- Telegraf command matching for a text message, bot-name mentions not
modelled: the bare command or the command followed by an argument. -/
def isCommand (text cmd : String) : Bool :=
  text.data == ('/' :: cmd.data) ||
  charsStartWith text.data ('/' :: (cmd.data ++ [' ']))

/-- Dispatch of a text message update across the registered handlers, in
registration order; a message matched by no command handler falls through
to messageFallback. -/
def dispatchMessage (adminIdEnv adminUsernameEnv : Option String) (f : DbFaults)
    (dbCount : Option Nat) (dbList : Option (List ListedUser)) (sf : Nat → Bool)
    (exn : Option String) (store : List Registrant) (u : User) (text : String) :
    HandlerResult :=
  if isCommand text "start" then startCmd adminUsernameEnv f store u
  else if isCommand text "help" then ⟨store, helpCmd adminIdEnv u⟩
  else if isCommand text "count" then ⟨store, countCmd adminIdEnv (some u) dbCount exn⟩
  else if isCommand text "list" then ⟨store, listCmd adminIdEnv (some u) dbList exn⟩
  else if isCommand text "notify" then
    ⟨store, notifyCmd adminIdEnv (some u) text dbList sf exn⟩
  else ⟨store, messageFallback (some text)⟩

-- The isUserRegistered gateway function itself (lines 32-49), embedded
-- over the raw shape of a supabase .single() response so that its
-- tri-state translation can be stated claim C3's way.

/-- A backend-reported error with its code. -/
structure SupaError where
  code : String
deriving DecidableEq

/-- The row shape selected by isUserRegistered. -/
structure RegRow where
  telegram_id : Nat
deriving DecidableEq

/-- The destructured `{ data, error }` of a .single() call. -/
structure SingleResp where
  data : Option RegRow
  error : Option SupaError
deriving DecidableEq

/-- A backend call either resolves to a response or throws. -/
inductive DbCall where
  | ok (resp : SingleResp)
  | thrown (msg : String)
deriving DecidableEq

/-- isUserRegistered (lines 32-49): a thrown exception or an error whose
code is not PGRST116 yields the null sentinel (none); otherwise the result
is the truthiness of data. -/
def isUserRegistered : DbCall → Option Bool
  | .thrown _ => none
  | .ok r =>
    match r.error with
    | some e => if e.code ≠ "PGRST116" then none else some r.data.isSome
    | none => some r.data.isSome

/-- A concrete send-failure pattern used to instantiate universally
quantified statements: only recipient id 20 fails. -/
def failOn20 : Nat → Bool := fun n => n == 20

-- Shared helper lemmas

theorem countId_zero_not_registered (store : List Registrant) (id : Nat)
    (h : countId store id = 0) : storeIsRegistered store id = false := by
  unfold countId at h
  unfold storeIsRegistered
  rw [List.length_eq_zero] at h
  rw [List.any_eq_false]
  intro r hr
  simpa using List.filter_eq_nil_iff.mp h r hr

theorem storeIsRegistered_append (store : List Registrant) (row : Registrant)
    (id : Nat) :
    storeIsRegistered (store ++ [row]) id =
      (storeIsRegistered store id || (row.telegram_id == id)) := by
  unfold storeIsRegistered
  simp [List.any_append]

theorem countId_append (store : List Registrant) (row : Registrant) (id : Nat) :
    countId (store ++ [row]) id =
      countId store id + (if row.telegram_id == id then 1 else 0) := by
  unfold countId
  rw [List.filter_append, List.length_append]
  congr 1
  rw [List.filter_cons]
  split <;> simp

theorem broadcastLoop_effs (sf : Nat → Bool) (msg : String) :
    ∀ us, (broadcastLoop sf msg us).effs = sendEffs msg us := by
  intro us
  induction us with
  | nil => rfl
  | cons v rest ih =>
    cases hv : sf v.telegram_id <;>
      simp [broadcastLoop, hv, sendEffs, sendEff, List.map_cons] <;>
      simpa [sendEffs, sendEff] using ih

theorem broadcastLoop_failedIds (sf : Nat → Bool) (msg : String) :
    ∀ us, (broadcastLoop sf msg us).failedIds = failedIdsOf sf us := by
  intro us
  induction us with
  | nil => rfl
  | cons v rest ih =>
    cases hv : sf v.telegram_id <;>
      simp [broadcastLoop, hv, failedIdsOf, failsOn, List.filter_cons] <;>
      simpa [failedIdsOf, failsOn] using ih

theorem broadcastLoop_failed (sf : Nat → Bool) (msg : String) :
    ∀ us, (broadcastLoop sf msg us).failed = (failedIdsOf sf us).length := by
  intro us
  induction us with
  | nil => rfl
  | cons v rest ih =>
    cases hv : sf v.telegram_id <;>
      simp [broadcastLoop, hv, failedIdsOf, failsOn, List.filter_cons] <;>
      simpa [failedIdsOf, failsOn] using ih

theorem broadcastLoop_sent_add_failed (sf : Nat → Bool) (msg : String) :
    ∀ us, (broadcastLoop sf msg us).sent + (broadcastLoop sf msg us).failed =
      us.length := by
  intro us
  induction us with
  | nil => rfl
  | cons v rest ih =>
    cases hv : sf v.telegram_id <;> simp [broadcastLoop, hv] <;> omega

theorem broadcastLoop_no_logs (sf : Nat → Bool) (msg : String) :
    ∀ us, logEvents (broadcastLoop sf msg us).effs = [] := by
  intro us
  rw [broadcastLoop_effs]
  induction us with
  | nil => rfl
  | cons v rest ih =>
    simp only [sendEffs, sendEff, List.map_cons, logEvents,
      List.filterMap_cons, logEntryOf]
    simpa [logEvents, sendEffs, sendEff] using ih

/-- C3: the membership check isUserRegistered is tri-state: a no-rows
response (backend code PGRST116) yields false, a thrown exception or an
error with any other code yields the null sentinel, and a row match yields
true; the sentinel is distinguishable from the valid false result. -/
theorem c3_isUserRegistered_tristate :
    (∀ row : RegRow, isUserRegistered (.ok ⟨some row, none⟩) = some true) ∧
    (isUserRegistered (.ok ⟨none, some ⟨"PGRST116"⟩⟩) = some false) ∧
    (∀ (e : SupaError) (d : Option RegRow), e.code ≠ "PGRST116" →
      isUserRegistered (.ok ⟨d, some e⟩) = none) ∧
    (∀ msg : String, isUserRegistered (.thrown msg) = none) ∧
    (some false ≠ (none : Option Bool)) := by
  refine ⟨fun row => rfl, rfl, ?_, fun msg => rfl, by simp⟩
  intro e d he
  unfold isUserRegistered
  simp [he]

theorem c3_isUserRegistered_tristate_witness :
    (("XX123" : String) ≠ "PGRST116") ∧
    isUserRegistered (.ok ⟨none, some ⟨"XX123"⟩⟩) = none :=
  ⟨by decide, c3_isUserRegistered_tristate.2.2.1 ⟨"XX123"⟩ none (by decide)⟩

/-- C7: activating the decline affordance (callback data register_no,
which carries no id) performs no write to the registration store, leaves
every membership check unchanged, and only acknowledges the callback and
edits the prompt to the decline acknowledgement — for every user, fault
pattern and store state. -/
theorem c7_decline_never_writes (u : User) (f : DbFaults)
    (store : List Registrant) :
    (registerAction .no none u f store).store = store ∧
    (∀ id, storeIsRegistered (registerAction .no none u f store).store id =
      storeIsRegistered store id) ∧
    (registerAction .no none u f store).effects =
      [.answerCb none false, .editMessage declineMsg] := by
  refine ⟨?_, ?_, ?_⟩ <;> simp [registerAction, cbGuardBlocks]

/-- C10: when the configured administrator identifier is absent or does
not parse as a decimal integer, the admin gate rejects every requester
with the unauthorized message, appends no log, and never reaches the gated
handler or its store operation. -/
theorem c10_admin_gate_fails_closed (adminIdEnv : Option String)
    (h : parseIntJS (envToString adminIdEnv) = none) :
    ∀ (sender : Option User) (db : Option Nat) (dbl : Option (List ListedUser))
      (raw : String) (sf : Nat → Bool) (exn : Option String),
      isAdminGate adminIdEnv sender = false ∧
      countCmd adminIdEnv sender db exn = [.reply unauthorizedMsg] ∧
      listCmd adminIdEnv sender dbl exn = [.reply unauthorizedMsg] ∧
      notifyCmd adminIdEnv sender raw dbl sf exn = [.reply unauthorizedMsg] := by
  intro sender db dbl raw sf exn
  cases sender with
  | none => exact ⟨rfl, rfl, rfl, rfl⟩
  | some u =>
    have hg : isAdminGate adminIdEnv (some u) = false := by
      simp [isAdminGate, adminMatches, h]
    exact ⟨hg, by simp [countCmd, hg], by simp [listCmd, hg],
      by simp [notifyCmd, hg]⟩

theorem c10_admin_gate_fails_closed_witness :
    parseIntJS (envToString none) = none ∧
    countCmd none (some ⟨7, none, none⟩) (some 5) none =
      [.reply unauthorizedMsg] :=
  ⟨by decide, (c10_admin_gate_fails_closed none (by decide) (some ⟨7, none, none⟩)
    (some 5) none "" failOn20 none).2.1⟩

theorem logEvents_nil : logEvents [] = [] := rfl

theorem logEvents_append (a b : List Eff) :
    logEvents (a ++ b) = logEvents a ++ logEvents b := by
  simp [logEvents, List.filterMap_append]

/-- C1: for a user id with no row in the store, the accept affordance
first re-verifies membership and then registers exactly once: the
handler's trace answers the callback, re-checks, calls register with the
id, the handle and the first name (placeholder N/A when absent), and
edits the prompt to the confirmation; afterwards the membership check is
true with exactly one row for that id. When the re-check reports already
registered the handler short-circuits to the already-registered message
and never calls insert. The initial-contact command never mutates the
store, no matter how often it was issued beforehand. -/
theorem c1_accept_registers_exactly_once (store : List Registrant) (u : User)
    (h : countId store u.id = 0) :
    (∀ (adminUsernameEnv : Option String) (f : DbFaults)
       (st : List Registrant) (v : User),
       (startCmd adminUsernameEnv f st v).store = st) ∧
    ((registerAction .yes (some u.id) u noFaults store).effects =
      [.answerCb none false, .callIsRegistered u.id,
       .callRegister ⟨u.id, u.username, jsOr u.first_name "N/A"⟩,
       .editMessage (confirmMsg (jsOr u.first_name "there"))]) ∧
    storeIsRegistered (registerAction .yes (some u.id) u noFaults store).store
      u.id = true ∧
    countId (registerAction .yes (some u.id) u noFaults store).store u.id = 1 ∧
    (∀ st : List Registrant, storeIsRegistered st u.id = true →
      (registerAction .yes (some u.id) u noFaults st).effects =
        [.answerCb none false, .callIsRegistered u.id,
         .editMessage alreadyRegisteredMsg] ∧
      (registerAction .yes (some u.id) u noFaults st).store = st ∧
      ∀ row : Registrant,
        Eff.callRegister row ∉
          (registerAction .yes (some u.id) u noFaults st).effects) := by
  have hguard : cbGuardBlocks (some u.id) u.id = false := by
    simp [cbGuardBlocks]
  have hreg : storeIsRegistered store u.id = false :=
    countId_zero_not_registered store u.id h
  have hstore : (registerAction .yes (some u.id) u noFaults store).store
      = store ++ [⟨u.id, u.username, jsOr u.first_name "N/A"⟩] := by
    simp [registerAction, hguard, isRegisteredOp, noFaults, hreg, registerOp]
  refine ⟨?_, ?_, ?_, ?_, ?_⟩
  · intro a f st v
    unfold startCmd
    rcases hr : isRegisteredOp f st v.id with - | b
    · rfl
    · cases b <;> rfl
  · simp [registerAction, hguard, isRegisteredOp, noFaults, hreg, registerOp]
  · rw [hstore, storeIsRegistered_append]
    simp
  · rw [hstore, countId_append]
    simp [h]
  · intro st hst
    refine ⟨?_, ?_, ?_⟩ <;>
      simp [registerAction, hguard, isRegisteredOp, noFaults, hst]

theorem c1_accept_registers_exactly_once_witness :
    countId [] 5 = 0 ∧
    countId (registerAction .yes (some 5) ⟨5, some "bob", some "Bob"⟩
      noFaults []).store 5 = 1 :=
  ⟨by decide, (c1_accept_registers_exactly_once [] ⟨5, some "bob", some "Bob"⟩
    (by decide)).2.2.2.1⟩

/-- C2: behind a passing admin gate, each of count, list and notify
appends exactly one audit-log entry per invocation, on the success path
and on every failure path (backend error, empty-input validation, and an
injected unexpected fault reaching the catch block); a requester failing
the gate gets only the unauthorized reply, with no log append and no
store operation called. -/
theorem c2_exactly_one_log_per_invocation (adminIdEnv : Option String)
    (u : User) (h : isAdminGate adminIdEnv (some u) = true) :
    (∀ (db : Option Nat) (exn : Option String),
      (logEvents (countCmd adminIdEnv (some u) db exn)).length = 1) ∧
    (∀ (db : Option (List ListedUser)) (exn : Option String),
      (logEvents (listCmd adminIdEnv (some u) db exn)).length = 1) ∧
    (∀ (raw : String) (db : Option (List ListedUser)) (sf : Nat → Bool)
       (exn : Option String),
      (logEvents (notifyCmd adminIdEnv (some u) raw db sf exn)).length = 1) ∧
    (∀ v : User, isAdminGate adminIdEnv (some v) = false →
      ∀ (db : Option Nat) (dbl : Option (List ListedUser)) (raw : String)
        (sf : Nat → Bool) (exn : Option String),
        countCmd adminIdEnv (some v) db exn = [.reply unauthorizedMsg] ∧
        listCmd adminIdEnv (some v) dbl exn = [.reply unauthorizedMsg] ∧
        notifyCmd adminIdEnv (some v) raw dbl sf exn = [.reply unauthorizedMsg]) := by
  refine ⟨?_, ?_, ?_, ?_⟩
  · intro db exn
    cases exn <;> cases db <;>
      simp [countCmd, h, logEvents, List.filterMap_cons, logEntryOf]
  · intro db exn
    cases exn with
    | some m => simp [listCmd, h, logEvents, List.filterMap_cons, logEntryOf]
    | none =>
      cases db with
      | none => simp [listCmd, h, logEvents, List.filterMap_cons, logEntryOf]
      | some users =>
        cases users <;>
          simp [listCmd, h, logEvents, List.filterMap_cons, logEntryOf]
  · intro raw db sf exn
    by_cases hm : jsTrim (jsSubstringFrom raw 8) = ""
    · simp [notifyCmd, h, hm, logEvents, List.filterMap_cons, logEntryOf]
    · cases db with
      | none =>
        cases exn <;>
          simp [notifyCmd, h, hm, logEvents, List.filterMap_cons, logEntryOf]
      | some users =>
        cases users with
        | nil =>
          cases exn <;>
            simp [notifyCmd, h, hm, logEvents, List.filterMap_cons, logEntryOf]
        | cons w rest =>
          have hb := broadcastLoop_no_logs sf (jsTrim (jsSubstringFrom raw 8))
            (w :: rest)
          cases exn <;>
            simp [notifyCmd, h, hm, logEvents_append, hb, logEvents,
              List.filterMap_cons, logEntryOf] at hb ⊢ <;>
            exact hb
  · intro v hv db dbl raw sf exn
    exact ⟨by simp [countCmd, hv], by simp [listCmd, hv],
      by simp [notifyCmd, hv]⟩

theorem c2_exactly_one_log_per_invocation_witness :
    isAdminGate (some "1") (some ⟨1, none, none⟩) = true ∧
    (logEvents (countCmd (some "1") (some ⟨1, none, none⟩) none none)).length = 1 :=
  ⟨by decide, (c2_exactly_one_log_per_invocation (some "1") ⟨1, none, none⟩
    (by decide)).1 none none⟩

/-- C6: a notify invocation whose message text is empty or
whitespace-only after stripping the command token and trimming replies
with the usage hint, appends a notify_failed log entry, and never calls
the list operation. -/
theorem c6_notify_empty_text_never_lists (adminIdEnv : Option String)
    (u : User) (h : isAdminGate adminIdEnv (some u) = true)
    (raw : String) (hm : jsTrim (jsSubstringFrom raw 8) = "") :
    ∀ (db : Option (List ListedUser)) (sf : Nat → Bool) (exn : Option String),
      notifyCmd adminIdEnv (some u) raw db sf exn =
        [.reply usageMsg,
         .logAppend ⟨u.id, "notify_failed", "No message text provided."⟩] ∧
      Eff.callList ∉ notifyCmd adminIdEnv (some u) raw db sf exn := by
  intro db sf exn
  have he : notifyCmd adminIdEnv (some u) raw db sf exn =
      [.reply usageMsg,
       .logAppend ⟨u.id, "notify_failed", "No message text provided."⟩] := by
    simp [notifyCmd, h, hm]
  refine ⟨he, ?_⟩
  rw [he]
  simp

theorem c6_notify_empty_text_never_lists_witness :
    isAdminGate (some "1") (some ⟨1, none, none⟩) = true ∧
    jsTrim (jsSubstringFrom "/notify    " 8) = "" ∧
    notifyCmd (some "1") (some ⟨1, none, none⟩) "/notify    " none failOn20 none =
      [.reply usageMsg,
       .logAppend ⟨1, "notify_failed", "No message text provided."⟩] :=
  ⟨by decide, by decide,
    ((c6_notify_empty_text_never_lists (some "1") ⟨1, none, none⟩ (by decide)
      "/notify    " (by decide)) none failOn20 none).1⟩

/-- C5: a broadcast over a non-empty list returned by the store attempts
a send for every user in order (a failing send never aborts the rest),
replies with successes = N - F and failures = F where F is the number of
users whose send fails, and appends one broadcast_message log entry whose
details carry the message text, both tallies, and exactly the failed ids
in order. -/
theorem c5_broadcast_tallies_and_log (adminIdEnv : Option String) (u : User)
    (h : isAdminGate adminIdEnv (some u) = true)
    (raw : String) (hm : jsTrim (jsSubstringFrom raw 8) ≠ "")
    (users : List ListedUser) (hne : users ≠ []) (sf : Nat → Bool) :
    notifyCmd adminIdEnv (some u) raw (some users) sf none =
      [Eff.callList] ++ sendEffs (jsTrim (jsSubstringFrom raw 8)) users ++
      [.reply (broadcastSummary
          (users.length - (failedIdsOf sf users).length)
          ((failedIdsOf sf users).length)),
       .logAppend ⟨u.id, "broadcast_message",
         broadcastDetails (jsTrim (jsSubstringFrom raw 8))
           (users.length - (failedIdsOf sf users).length)
           ((failedIdsOf sf users).length)
           (failedIdsOf sf users)⟩] ∧
    ∀ v ∈ users,
      Eff.sendMessage v.telegram_id (jsTrim (jsSubstringFrom raw 8)) ∈
        notifyCmd adminIdEnv (some u) raw (some users) sf none := by
  cases users with
  | nil => cases hne rfl
  | cons w rest =>
    have h1 := broadcastLoop_effs sf (jsTrim (jsSubstringFrom raw 8)) (w :: rest)
    have h2 := broadcastLoop_failed sf (jsTrim (jsSubstringFrom raw 8)) (w :: rest)
    have h3 := broadcastLoop_failedIds sf (jsTrim (jsSubstringFrom raw 8)) (w :: rest)
    have h4 := broadcastLoop_sent_add_failed sf (jsTrim (jsSubstringFrom raw 8))
      (w :: rest)
    have hs : (broadcastLoop sf (jsTrim (jsSubstringFrom raw 8)) (w :: rest)).sent
        = (w :: rest).length - (failedIdsOf sf (w :: rest)).length := by
      omega
    have he : notifyCmd adminIdEnv (some u) raw (some (w :: rest)) sf none =
        [Eff.callList] ++ sendEffs (jsTrim (jsSubstringFrom raw 8)) (w :: rest) ++
        [.reply (broadcastSummary
            ((w :: rest).length - (failedIdsOf sf (w :: rest)).length)
            ((failedIdsOf sf (w :: rest)).length)),
         .logAppend ⟨u.id, "broadcast_message",
           broadcastDetails (jsTrim (jsSubstringFrom raw 8))
             ((w :: rest).length - (failedIdsOf sf (w :: rest)).length)
             ((failedIdsOf sf (w :: rest)).length)
             (failedIdsOf sf (w :: rest))⟩] := by
      simp only [notifyCmd, h, if_true, hm, if_neg]
      rw [h1, h2, h3, hs]
      simp [hm]
    refine ⟨he, ?_⟩
    intro v hv
    rw [he]
    refine List.mem_append.mpr (Or.inl (List.mem_append.mpr (Or.inr ?_)))
    exact List.mem_map.mpr ⟨v, hv, rfl⟩

theorem c5_broadcast_tallies_and_log_witness :
    isAdminGate (some "1") (some ⟨1, none, none⟩) = true ∧
    jsTrim (jsSubstringFrom "/notify hi" 8) ≠ "" ∧
    ([⟨10, some "a"⟩, ⟨20, none⟩, ⟨30, none⟩] : List ListedUser) ≠ [] ∧
    notifyCmd (some "1") (some ⟨1, none, none⟩) "/notify hi"
        (some [⟨10, some "a"⟩, ⟨20, none⟩, ⟨30, none⟩]) failOn20 none =
      [Eff.callList] ++
      sendEffs (jsTrim (jsSubstringFrom "/notify hi" 8))
        [⟨10, some "a"⟩, ⟨20, none⟩, ⟨30, none⟩] ++
      [.reply (broadcastSummary
          (([⟨10, some "a"⟩, ⟨20, none⟩, ⟨30, none⟩] : List ListedUser).length -
            (failedIdsOf failOn20 [⟨10, some "a"⟩, ⟨20, none⟩, ⟨30, none⟩]).length)
          ((failedIdsOf failOn20 [⟨10, some "a"⟩, ⟨20, none⟩, ⟨30, none⟩]).length)),
       .logAppend ⟨1, "broadcast_message",
         broadcastDetails (jsTrim (jsSubstringFrom "/notify hi" 8))
           (([⟨10, some "a"⟩, ⟨20, none⟩, ⟨30, none⟩] : List ListedUser).length -
             (failedIdsOf failOn20 [⟨10, some "a"⟩, ⟨20, none⟩, ⟨30, none⟩]).length)
           ((failedIdsOf failOn20 [⟨10, some "a"⟩, ⟨20, none⟩, ⟨30, none⟩]).length)
           (failedIdsOf failOn20 [⟨10, some "a"⟩, ⟨20, none⟩, ⟨30, none⟩])⟩] :=
  ⟨by decide, by decide, by decide,
    (c5_broadcast_tallies_and_log (some "1") ⟨1, none, none⟩ (by decide)
      "/notify hi" (by decide) [⟨10, some "a"⟩, ⟨20, none⟩, ⟨30, none⟩]
      (by decide) failOn20).1⟩

theorem isCommand_eq_false_of_no_slash (t cmd : String)
    (h : jsStartsWith t "/" = false) : isCommand t cmd = false := by
  unfold jsStartsWith at h
  unfold isCommand
  have hd : ("/" : String).data = ['/'] := rfl
  rw [hd] at h
  cases ht : t.data with
  | nil =>
    simp [charsStartWith]
  | cons c cs =>
    rw [ht] at h
    have hc : ¬ (c = '/') := by
      intro hcc
      rw [hcc] at h
      simp [charsStartWith] at h
    simp [charsStartWith, hc]

/-- C4 (amended): the accept affordance carries the initiating user's id
in its callback data; whenever the carried id is nonzero and differs from
the acting user's id, the handler answers with the visible not-for-you
alert and stops, with no store change and no insert call. The decline
affordance, however, carries no id (its callback data is the fixed string
register_no), so it is never guarded. -/
theorem c4_accept_guard_mismatch (creator : Nat) (actor : User)
    (h1 : creator ≠ actor.id) (h2 : creator ≠ 0) :
    acceptButton creator =
      .callbackBtn "✅ Yes, register me!" ("register_yes:" ++ toString creator) ∧
    (∀ (f : DbFaults) (store : List Registrant),
      registerAction .yes (some creator) actor f store =
        ⟨store, [.answerCb (some notForYouMsg) true]⟩ ∧
      ∀ row : Registrant,
        Eff.callRegister row ∉
          (registerAction .yes (some creator) actor f store).effects) ∧
    parseCallback "register_no" = some (.no, none) := by
  have hguard : cbGuardBlocks (some creator) actor.id = true := by
    simp [cbGuardBlocks]
    exact ⟨h2, h1⟩
  refine ⟨rfl, ?_, by decide⟩
  intro f store
  have he : registerAction .yes (some creator) actor f store =
      ⟨store, [.answerCb (some notForYouMsg) true]⟩ := by
    simp [registerAction, hguard]
  refine ⟨he, ?_⟩
  intro row
  rw [he]
  simp

theorem c4_accept_guard_mismatch_witness :
    (1 : Nat) ≠ (⟨2, none, none⟩ : User).id ∧ (1 : Nat) ≠ 0 ∧
    registerAction .yes (some 1) ⟨2, none, none⟩ noFaults [] =
      ⟨[], [.answerCb (some notForYouMsg) true]⟩ :=
  ⟨by decide, by decide,
    ((c4_accept_guard_mismatch 1 ⟨2, none, none⟩ (by decide) (by decide)).2.1
      noFaults []).1⟩

/-- C4 counterexample: the decline affordance created for user 1 carries
no id — its callback data is the fixed string register_no — and user 2
activating it is not rejected: the handler acknowledges the callback and
edits the prompt to the decline acknowledgement instead of replying with
the not-for-you notice. -/
theorem c4_decline_carries_no_id :
    buttonsOf (startCmd none noFaults []
      ⟨1, some "alice", some "Alice"⟩).effects =
      [[[acceptButton 1, declineButton]]] ∧
    declineButton = .callbackBtn "❌ No, thanks." "register_no" ∧
    parseCallback "register_no" = some (.no, none) ∧
    (registerAction .no none ⟨2, none, none⟩ noFaults []).effects =
      [.answerCb none false, .editMessage declineMsg] ∧
    Eff.answerCb (some notForYouMsg) true ∉
      (registerAction .no none ⟨2, none, none⟩ noFaults []).effects :=
  ⟨by decide, rfl, by decide, by decide, by decide⟩

/-- C8 counterexample: a ListedUser whose handle is present but equal to
the empty string is falsy in JS, so /list renders it as the bare id: the
row with id 7 and handle "" renders as "- 7", not as "- 7 (@)" as the
claim's "when the handle is present" predicts. -/
theorem c8_empty_handle_renders_bare :
    formatUserEntry ⟨7, some ""⟩ = "- 7" ∧
    listCmd (some "1") (some ⟨1, none, none⟩) (some [⟨7, some ""⟩]) none =
      [.callList, .reply "Registered Users:\n- 7",
       .logAppend ⟨1, "list_users", "Returned 1 users."⟩] ∧
    ("- 7" : String) ≠ "- 7 (@)" :=
  ⟨by decide, by decide, by decide⟩

/-- C8 (amended): for every non-empty list returned by the store, the
/list reply is the Registered Users header followed by the newline-joined
entries, where an entry renders as "- id (@handle)" when the handle is
present and non-empty and as "- id" when it is absent or empty; the
spec's concrete scenario renders exactly as stated, and an empty list
yields the no-users message. -/
theorem c8_list_rendering (adminIdEnv : Option String) (u : User)
    (h : isAdminGate adminIdEnv (some u) = true) :
    (∀ users : List ListedUser, users ≠ [] →
      listCmd adminIdEnv (some u) (some users) none =
        [.callList, .reply ("Registered Users:\n" ++ formatUserList users),
         .logAppend ⟨u.id, "list_users",
           "Returned " ++ toString users.length ++ " users."⟩]) ∧
    (∀ (id : Nat) (s : String), s ≠ "" →
      formatUserEntry ⟨id, some s⟩ =
        "- " ++ toString id ++ " (@" ++ s ++ ")") ∧
    (∀ id : Nat, formatUserEntry ⟨id, none⟩ = "- " ++ toString id) ∧
    (∀ id : Nat, formatUserEntry ⟨id, some ""⟩ = "- " ++ toString id) ∧
    (listCmd (some "1") (some ⟨1, none, none⟩)
        (some [⟨42, some "alice"⟩, ⟨7, none⟩]) none =
      [.callList, .reply "Registered Users:\n- 42 (@alice)\n- 7",
       .logAppend ⟨1, "list_users", "Returned 2 users."⟩]) ∧
    (listCmd adminIdEnv (some u) (some []) none =
      [.callList, .reply noUsersMsg,
       .logAppend ⟨u.id, "list_users", "No registered users."⟩]) := by
  refine ⟨?_, ?_, ?_, ?_, by decide, by simp [listCmd, h]⟩
  · intro users hne
    cases users with
    | nil => cases hne rfl
    | cons w rest => simp [listCmd, h]
  · intro id s hs
    simp [formatUserEntry, jsTruthy, jsOr, hs, String.append_assoc]
  · intro id
    simp [formatUserEntry, jsTruthy, jsOr]
  · intro id
    simp [formatUserEntry, jsTruthy, jsOr]

theorem c8_list_rendering_witness :
    isAdminGate (some "1") (some ⟨1, none, none⟩) = true ∧
    ("alice" : String) ≠ "" ∧
    formatUserEntry ⟨42, some "alice"⟩ =
      "- " ++ toString (42 : Nat) ++ " (@" ++ "alice" ++ ")" :=
  ⟨by decide, by decide,
    (c8_list_rendering (some "1") ⟨1, none, none⟩ (by decide)).2.1 42 "alice"
      (by decide)⟩

/-- C9 counterexample: the text message "/foo" is neither a recognized
command nor a registration affordance, yet dispatch produces no reply at
all — the fallback ignores every text starting with "/" — and bot.catch
only writes to the console, so no generic user-visible failure message
exists either. -/
theorem c9_unrecognized_command_unanswered :
    (dispatchMessage (some "1") none noFaults none none failOn20 none []
      ⟨9, none, none⟩ "/foo").effects = [] ∧
    messageFallback (some "/foo") = [] ∧
    botCatch "message" = [.consoleErr "[Telegraf CATCH] Error for message:"] ∧
    Eff.reply genericFailMsg ∉ botCatch "message" :=
  ⟨by decide, by decide, by decide, by decide⟩

/-- C9 (amended): a non-empty free-text message that does not start with
"/" always gets the static hint reply from the dispatcher, but a
slash-text matched by no command handler gets no reply at all, and
bot.catch only logs a fault to the console — it sends no user-visible
failure message. -/
theorem c9_dispatcher_fallback (adminIdEnv adminUsernameEnv : Option String)
    (f : DbFaults) (dbCount : Option Nat) (dbList : Option (List ListedUser))
    (sf : Nat → Bool) (exn : Option String) (store : List Registrant)
    (u : User) (t : String) (h1 : t ≠ "") (h2 : jsStartsWith t "/" = false) :
    dispatchMessage adminIdEnv adminUsernameEnv f dbCount dbList sf exn store u t
      = ⟨store, [.reply hintMsg]⟩ ∧
    (∀ updateType : String,
      botCatch updateType =
        [.consoleErr ("[Telegraf CATCH] Error for " ++ updateType ++ ":")]) := by
  have hs := isCommand_eq_false_of_no_slash t "start" h2
  have hh := isCommand_eq_false_of_no_slash t "help" h2
  have hc := isCommand_eq_false_of_no_slash t "count" h2
  have hl := isCommand_eq_false_of_no_slash t "list" h2
  have hn := isCommand_eq_false_of_no_slash t "notify" h2
  refine ⟨?_, fun updateType => rfl⟩
  simp [dispatchMessage, hs, hh, hc, hl, hn, messageFallback, h1, h2]

theorem c9_dispatcher_fallback_witness :
    ("hello" : String) ≠ "" ∧ jsStartsWith "hello" "/" = false ∧
    dispatchMessage (some "1") none noFaults none none failOn20 none []
      ⟨9, none, none⟩ "hello" = ⟨[], [.reply hintMsg]⟩ :=
  ⟨by decide, by decide,
    (c9_dispatcher_fallback (some "1") none noFaults none none failOn20 none []
      ⟨9, none, none⟩ "hello" (by decide) (by decide)).1⟩
